import Mathlib

/-!
Shallow embedding of the STM32 GPDMA sharing helper driver
(os/hal/ports/STM32/LLD/GPDMAv1/stm32_gpdma.c) and verification of the
specified allocator and interrupt-dispatch properties.

Machine integers are modelled as Nat with explicit bitwise operations;
all masks involved stay below 2^32.  A channel descriptor is identified
by its index into the channel table (pointer arithmetic in the C code
recovers exactly this index).  Callbacks and their opaque parameters are
modelled as Nat codes, with Option for the NULL function pointer.
-/

namespace Gpdma

/-- Modelled from the spec: STM32_GPDMA_CHANNELS comes from the platform
header, which is not part of the sources here; the spec scenario fixes
channels 0-7 on GPDMA1 and 8-15 on GPDMA2, so N = 16. -/
def NCH : Nat := 16

/-- Modelled from the spec: STM32_GPDMA1_MASK_ANY, the bits of the channels
in clock domain A (GPDMA1), channels 0-7. -/
def GPDMA1MASK : Nat := 0xFF

/-- Modelled from the spec: STM32_GPDMA2_MASK_ANY, the bits of the channels
in clock domain B (GPDMA2), channels 8-15. -/
def GPDMA2MASK : Nat := 0xFF00

/-- All 32 bits set; used for the C complement ~(1U << i) on uint32_t. -/
def mask32 : Nat := 2 ^ 32 - 1

/-- Pointwise update of a function at one index. -/
def updf {α : Type} (f : Nat → α) (i : Nat) (v : α) : Nat → α :=
  fun j => if j = i then v else f j

/-- The global DMA state: the `gpdma` structure of the C file (ownership
mask and per-channel callback slots), together with the externally
observable collaborator state the driver drives (clock gates of the two
domains, per-channel interrupt-vector enables) and the per-channel
control register CCR. -/
structure GpdmaState where
  allocated_mask : Nat
  func  : Nat → Option Nat
  param : Nat → Nat
  clock1 : Bool
  clock2 : Bool
  vecEnabled : Nat → Bool
  vecPrio : Nat → Nat
  ccr : Nat → Nat

/-- Modelled from the spec: the power-on state of the external
collaborators (clock gates and interrupt vectors disabled at reset);
the driver variables before dmaInit hold arbitrary values, taken 0/none. -/
def powerOn : GpdmaState :=
  { allocated_mask := 0
    func := fun _ => none
    param := fun _ => 0
    clock1 := false
    clock2 := false
    vecEnabled := fun _ => false
    vecPrio := fun _ => 0
    ccr := fun _ => 0 }

/-- dmaInit: clears the ownership mask and, for every channel index below
NCH, forces CCR to 0 and removes the callback.  It does not touch clocks,
vectors or the stored parameters (the C code clears none of those). -/
def dmaInit (st : GpdmaState) : GpdmaState :=
  { st with
    allocated_mask := 0
    ccr := fun i => if i < NCH then 0 else st.ccr i
    func := fun i => if i < NCH then none else st.func i }

/-- The scan of gpdmaChannelAllocI: the C loop runs i from 0 up to and
INCLUDING STM32_GPDMA_CHANNELS and returns the first i whose bit is clear
in `available`.  List.find? over range (NCH + 1) returns exactly that
first index, or none when the loop falls through. -/
def allocScan (available : Nat) : Option Nat :=
  (List.range (NCH + 1)).find? (fun i => available &&& (1 <<< i) == 0)

/-- gpdmaChannelAllocI, translated line by line from the C source:
available = allocated_mask AND cmask; first index i in [0, NCH] with
(available AND (1 shl i)) = 0 is taken; on a hit the callback slot is
written, the ownership bit OR-ed in, the domain clocks enabled when the
bit meets the corresponding domain mask, the vector enabled when a
callback was given, the channel put in a known state (gpdmaStreamDisable
followed by CCR = 0, whose combined effect on the modelled control
register is CCR = 0), and the descriptor (its index) returned; otherwise
NULL (none) is returned and nothing changes. -/
def gpdmaChannelAllocI (st : GpdmaState) (cmask irqprio : Nat)
    (fn : Option Nat) (par : Nat) : GpdmaState × Option Nat :=
  let available := st.allocated_mask &&& cmask
  match allocScan available with
  | none => (st, none)
  | some i =>
    let mask := 1 <<< i
    let st1 : GpdmaState :=
      { allocated_mask := st.allocated_mask ||| mask
        func := updf st.func i fn
        param := updf st.param i par
        clock1 := if GPDMA1MASK &&& mask ≠ 0 then true else st.clock1
        clock2 := if GPDMA2MASK &&& mask ≠ 0 then true else st.clock2
        vecEnabled := if fn.isSome then updf st.vecEnabled i true else st.vecEnabled
        vecPrio := if fn.isSome then updf st.vecPrio i irqprio else st.vecPrio
        ccr := updf st.ccr i 0 }
    (st1, some i)

/-- gpdmaChannelFreeI on the descriptor with index selfindex: clears the
ownership bit (32-bit AND with the complement), disables the vector,
empties the callback slot, and shuts a domain clock down when no channel
of that domain remains allocated. -/
def gpdmaChannelFreeI (st : GpdmaState) (selfindex : Nat) : GpdmaState :=
  let newmask := st.allocated_mask &&& (mask32 ^^^ (1 <<< selfindex))
  { allocated_mask := newmask
    func := updf st.func selfindex none
    param := updf st.param selfindex 0
    clock1 := if newmask &&& GPDMA1MASK = 0 then false else st.clock1
    clock2 := if newmask &&& GPDMA2MASK = 0 then false else st.clock2
    vecEnabled := updf st.vecEnabled selfindex false
    vecPrio := st.vecPrio
    ccr := st.ccr }

/-- The debug assertion of gpdmaChannelFreeI: the released channel must
currently be allocated. -/
def freeOk (st : GpdmaState) (selfindex : Nat) : Prop :=
  st.allocated_mask &&& (1 <<< selfindex) ≠ 0

instance (st : GpdmaState) (selfindex : Nat) : Decidable (freeOk st selfindex) := by
  unfold freeOk
  infer_instance

/-- osalSysLock, modelled as entering the critical section. -/
def osalSysLock (st : Bool × GpdmaState) : Bool × GpdmaState :=
  (true, st.2)

/-- osalSysUnlock, modelled as leaving the critical section. -/
def osalSysUnlock (st : Bool × GpdmaState) : Bool × GpdmaState :=
  (false, st.2)

/-- Modelled from the spec: gpdmaStreamFreeI, the callee of the locked
wrapper gpdmaChannelFree, is declared in the header which is not among
the sources; the spec states that the locked release wrapper performs the
already-locked release ReleaseExclusive, so it is modelled as
gpdmaChannelFreeI. -/
def gpdmaStreamFreeI (st : GpdmaState) (selfindex : Nat) : GpdmaState :=
  gpdmaChannelFreeI st selfindex

/-- gpdmaChannelFree: osalSysLock; gpdmaStreamFreeI; osalSysUnlock,
exactly as in the C source, over a state paired with the critical-section
flag. -/
def gpdmaChannelFree (st : Bool × GpdmaState) (selfindex : Nat) : Bool × GpdmaState :=
  let l := osalSysLock st
  let f := (l.1, gpdmaStreamFreeI l.2 selfindex)
  osalSysUnlock f

/-- gpdmaServeInterrupt for the channel with index i, when the hardware
status register CSR reads csr: the value csr is written back to the
clear register CFCR, and when (csr AND CCR) is non-zero and a callback
is installed, that callback is invoked with (param, csr).  The result is
the value written to CFCR paired with the performed invocation
(callback code, parameter, status), if any. -/
def gpdmaServeInterrupt (st : GpdmaState) (i : Nat) (csr : Nat) :
    Nat × Option (Nat × Nat × Nat) :=
  let cleared := csr
  let call :=
    if csr &&& st.ccr i ≠ 0 then
      match st.func i with
      | some f => some (f, st.param i, csr)
      | none => none
    else none
  (cleared, call)

/-- The initial state: dmaInit applied to the power-on state. -/
def initSt : GpdmaState := dmaInit powerOn

/-- States reachable from initialization by claim and release operations.
Release takes a valid descriptor (an index into the channel table, hence
below NCH) whose channel is currently allocated, as the debug assertion
of the C code enforces. -/
inductive Reachable : GpdmaState → Prop where
  | init : Reachable initSt
  | alloc (st : GpdmaState) (cmask irqprio par : Nat) (fn : Option Nat) :
      Reachable st → Reachable (gpdmaChannelAllocI st cmask irqprio fn par).1
  | free (st : GpdmaState) (i : Nat) (hi : i < NCH) (ho : freeOk st i) :
      Reachable st → Reachable (gpdmaChannelFreeI st i)

/-- The callback-slot invariant: a channel index below NCH has a stored
callback only while its ownership bit is set. -/
def CallbackInv (st : GpdmaState) : Prop :=
  ∀ i, i < NCH → (st.func i).isSome = true →
    st.allocated_mask &&& (1 <<< i) ≠ 0

instance (st : GpdmaState) : Decidable (CallbackInv st) := by
  unfold CallbackInv
  infer_instance

/-- The state after claiming channel 0 from the initialized state
(cmask = 1, callback 7, parameter 5). -/
def stCh0 : GpdmaState := (gpdmaChannelAllocI initSt 1 1 (some 7) 5).1

/-- The state after sixteen claims with cmask = 0xFFFF from the
initialized state: all sixteen channels allocated. -/
def stFull : GpdmaState :=
  (List.range 16).foldl
    (fun s _ => (gpdmaChannelAllocI s 0xFFFF 1 (some 7) 5).1) initSt

/-- A state where channel 0 is owned with callback 7 and parameter 5 and
the owner has programmed interrupt-enable bits 3 into its control
register through the out-of-scope streaming API. -/
def stCb : GpdmaState := { stCh0 with ccr := updf stCh0.ccr 0 3 }

/- ================= Helper lemmas on Nat bit operations ================= -/

theorem land_shift_ne_zero (x j : Nat) :
    x &&& (1 <<< j) ≠ 0 ↔ x.testBit j = true := by
  rw [Nat.one_shiftLeft, Nat.and_two_pow]
  cases h : x.testBit j
  · simp [h]
  · simp [h, (Nat.two_pow_pos j).ne']

theorem land_ne_zero_iff (x y : Nat) :
    x &&& y ≠ 0 ↔ ∃ j, x.testBit j = true ∧ y.testBit j = true := by
  constructor
  · intro h
    obtain ⟨j, hj⟩ := Nat.ne_zero_implies_bit_true h
    have hj2 : x.testBit j = true ∧ y.testBit j = true := by
      simpa [Nat.testBit_and] using hj
    exact ⟨j, hj2.1, hj2.2⟩
  · rintro ⟨j, hx, hy⟩ h0
    have hb : (x &&& y).testBit j = true := by simp [Nat.testBit_and, hx, hy]
    rw [h0] at hb
    simp at hb

theorem lor_eq_zero_iff (x y : Nat) : x ||| y = 0 ↔ x = 0 ∧ y = 0 := by
  constructor
  · intro h
    have hb : ∀ j, x.testBit j = false ∧ y.testBit j = false := by
      intro j
      have hj := congrArg (fun z => Nat.testBit z j) h
      simp only [Nat.testBit_or, Nat.zero_testBit, Bool.or_eq_false_iff] at hj
      exact hj
    constructor <;>
      (apply Nat.eq_of_testBit_eq; intro j; simp [(hb j).1, (hb j).2])
  · rintro ⟨hx, hy⟩
    simp [hx, hy]

theorem lor_land_ne_zero (a b c : Nat) :
    (a ||| b) &&& c ≠ 0 ↔ a &&& c ≠ 0 ∨ b &&& c ≠ 0 := by
  rw [Nat.and_distrib_right, Ne, lor_eq_zero_iff]
  tauto

theorem land_land_ne_zero (m c M : Nat) (h : (m &&& c) &&& M ≠ 0) :
    m &&& M ≠ 0 := by
  intro h0
  apply h
  rw [Nat.land_assoc, Nat.land_comm c M, ← Nat.land_assoc, h0]
  simp

/- =============== Unfolding equations for the operations =============== -/

theorem allocI_none (st : GpdmaState) (cmask irqprio par : Nat)
    (fn : Option Nat) (h : allocScan (st.allocated_mask &&& cmask) = none) :
    gpdmaChannelAllocI st cmask irqprio fn par = (st, none) := by
  unfold gpdmaChannelAllocI
  simp only [h]

theorem allocI_some (st : GpdmaState) (cmask irqprio par : Nat)
    (fn : Option Nat) (i : Nat)
    (h : allocScan (st.allocated_mask &&& cmask) = some i) :
    gpdmaChannelAllocI st cmask irqprio fn par =
      ({ allocated_mask := st.allocated_mask ||| 1 <<< i
         func := updf st.func i fn
         param := updf st.param i par
         clock1 := if GPDMA1MASK &&& 1 <<< i ≠ 0 then true else st.clock1
         clock2 := if GPDMA2MASK &&& 1 <<< i ≠ 0 then true else st.clock2
         vecEnabled := if fn.isSome then updf st.vecEnabled i true else st.vecEnabled
         vecPrio := if fn.isSome then updf st.vecPrio i irqprio else st.vecPrio
         ccr := updf st.ccr i 0 }, some i) := by
  unfold gpdmaChannelAllocI
  simp only [h]

theorem freeI_mask (st : GpdmaState) (i : Nat) :
    (gpdmaChannelFreeI st i).allocated_mask =
      st.allocated_mask &&& (mask32 ^^^ (1 <<< i)) := rfl

theorem freeI_func (st : GpdmaState) (i : Nat) :
    (gpdmaChannelFreeI st i).func = updf st.func i none := rfl

theorem freeI_clock1 (st : GpdmaState) (i : Nat) :
    (gpdmaChannelFreeI st i).clock1 =
      if (st.allocated_mask &&& (mask32 ^^^ (1 <<< i))) &&& GPDMA1MASK = 0
      then false else st.clock1 := rfl

theorem freeI_clock2 (st : GpdmaState) (i : Nat) :
    (gpdmaChannelFreeI st i).clock2 =
      if (st.allocated_mask &&& (mask32 ^^^ (1 <<< i))) &&& GPDMA2MASK = 0
      then false else st.clock2 := rfl

/- ============================ Claim theorems ============================ -/

/-- C1: mask confinement fails on the code.  From the initialized state a
claim whose candidate set contains only channel 1 (cmask = 2) succeeds
and returns channel 0, whose index bit is not in the candidate set: the
availability test of gpdmaChannelAllocI is inverted, so the scan accepts
every channel that is not simultaneously allocated and inside cmask. -/
theorem alloc_returns_channel_outside_candidate_set :
    (gpdmaChannelAllocI initSt 2 1 (some 7) 5).2 = some 0 ∧
    2 &&& (1 <<< 0) = 0 := by
  decide

/-- C2: the lowest-free-index-in-set policy fails on the code.  From the
initialized state with cmask = 6 the candidate set holds the two free
channels 1 and 2, so the claim should return channel 1; the code returns
channel 0, which is not even in the candidate set. -/
theorem alloc_ignores_lowest_index_policy :
    (gpdmaChannelAllocI initSt 6 1 (some 7) 5).2 = some 0 ∧
    initSt.allocated_mask &&& (1 <<< 1) = 0 ∧ 6 &&& (1 <<< 1) ≠ 0 ∧
    initSt.allocated_mask &&& (1 <<< 2) = 0 ∧ 6 &&& (1 <<< 2) ≠ 0 ∧
    6 &&& (1 <<< 0) = 0 := by
  decide

/-- C3: the scan can leave the valid index range.  After sixteen claims
with cmask = 0xFFFF every channel is allocated; one more such claim makes
the loop, whose bound is i less-or-equal NCH, pick index NCH = 16, an
index outside the channel table and the callback-slot array. -/
theorem alloc_scan_reaches_out_of_range_index :
    stFull.allocated_mask = 0xFFFF ∧
    (gpdmaChannelAllocI stFull 0xFFFF 1 (some 7) 5).2 = some NCH ∧
    ¬ NCH < NCH := by
  decide

/-- C4: with channel 0 owned and cmask = 1, every channel of the
candidate set is owned, yet the claim does not return NULL: it returns
channel 1 (outside the set) and mutates the ownership mask. -/
theorem alloc_on_exhausted_candidate_set_not_null :
    stCh0.allocated_mask &&& 1 ≠ 0 ∧
    (gpdmaChannelAllocI stCh0 1 1 (some 7) 5).2 ≠ none ∧
    (gpdmaChannelAllocI stCh0 1 1 (some 7) 5).1.allocated_mask ≠
      stCh0.allocated_mask := by
  decide

/-- C5: the concrete scenario fails on the code.  From the all-unowned
initialized state, a claim with cmask = 0xFF00 returns channel 0 instead
of channel 8, enables the clock of domain A (GPDMA1) and leaves the
clock of domain B (GPDMA2) off, the exact opposite of the specified
behavior. -/
theorem scenario_claim_ff00_returns_channel0 :
    (gpdmaChannelAllocI initSt 0xFF00 1 (some 7) 5).2 = some 0 ∧
    (gpdmaChannelAllocI initSt 0xFF00 1 (some 7) 5).1.clock1 = true ∧
    (gpdmaChannelAllocI initSt 0xFF00 1 (some 7) 5).1.clock2 = false := by
  decide

/-- C6: claim-then-release does not always restore the ownership mask.
With channel 0 already owned, a claim with cmask = 2 succeeds and again
returns channel 0; releasing the returned channel then clears the bit
that was set before the claim, leaving the mask 0 instead of 1. -/
theorem claim_release_loses_preowned_bit :
    (gpdmaChannelAllocI stCh0 2 1 (some 7) 5).2 = some 0 ∧
    (gpdmaChannelFreeI (gpdmaChannelAllocI stCh0 2 1 (some 7) 5).1
      0).allocated_mask ≠ stCh0.allocated_mask := by
  decide

/-- C7: the invariant that a callback slot of a valid channel index is
non-empty only while the ownership bit of that index is set holds after
dmaInit and is preserved by every claim (which writes the slot and the
bit of the same index together) and by every release (which empties the
slot and clears the bit of the same index together). -/
theorem callback_slot_invariant :
    CallbackInv initSt ∧
    (∀ st cmask irqprio par fn, CallbackInv st →
      CallbackInv (gpdmaChannelAllocI st cmask irqprio fn par).1) ∧
    (∀ st i, CallbackInv st → CallbackInv (gpdmaChannelFreeI st i)) := by
  refine ⟨by decide, ?_, ?_⟩
  · intro st cmask irqprio par fn hinv
    unfold CallbackInv at *
    cases hscan : allocScan (st.allocated_mask &&& cmask) with
    | none =>
      rw [allocI_none st cmask irqprio par fn hscan]
      exact hinv
    | some i =>
      rw [allocI_some st cmask irqprio par fn i hscan]
      intro j hj hsome
      rw [land_shift_ne_zero]
      by_cases hji : j = i
      · subst hji
        simp [Nat.testBit_or, Nat.one_shiftLeft, Nat.testBit_two_pow_self]
      · have hfj : (st.func j).isSome = true := by
          simpa [updf, hji] using hsome
        have hb := hinv j hj hfj
        rw [land_shift_ne_zero] at hb
        simp [Nat.testBit_or, hb]
  · intro st i hinv
    unfold CallbackInv at *
    intro j hj hsome
    rw [freeI_func] at hsome
    have hji : j ≠ i := by
      intro h
      subst h
      simp [updf] at hsome
    have hfj : (st.func j).isSome = true := by
      simpa [updf, hji] using hsome
    have hb := hinv j hj hfj
    rw [land_shift_ne_zero] at hb
    rw [land_shift_ne_zero, freeI_mask]
    have hj32 : j < 32 := by
      have hn : NCH = 16 := rfl
      omega
    have hm32 : (mask32).testBit j = true := by
      rw [show mask32 = 2 ^ 32 - 1 from rfl, Nat.testBit_two_pow_sub_one]
      simpa using hj32
    have hpow : ((1 <<< i) : Nat).testBit j = false := by
      rw [Nat.one_shiftLeft]
      exact Nat.testBit_two_pow_of_ne (Ne.symm hji)
    simp [Nat.testBit_and, Nat.testBit_xor, hm32, hpow, hb]

/-- C7 witness: the invariant holds concretely for a release applied to
the state with channel 0 claimed. -/
theorem callback_slot_invariant_witness :
    CallbackInv (gpdmaChannelFreeI stCh0 0) :=
  callback_slot_invariant.2.2 stCh0 0 (by decide)

/-- C8: gpdmaServeInterrupt writes the status it read back to the
clear-pending register, dispatches exactly when the status shares a set
bit with the enabled bits of the control register and a callback is
registered, and in that case invokes the registered callback with the
stored parameter and the full status word. -/
theorem serve_interrupt_dispatch :
    ∀ st i csr,
      (gpdmaServeInterrupt st i csr).1 = csr ∧
      ((gpdmaServeInterrupt st i csr).2.isSome = true ↔
        (csr &&& st.ccr i ≠ 0 ∧ (st.func i).isSome = true)) ∧
      (∀ f, st.func i = some f → csr &&& st.ccr i ≠ 0 →
        (gpdmaServeInterrupt st i csr).2 = some (f, st.param i, csr)) := by
  intro st i csr
  refine ⟨rfl, ?_, ?_⟩
  · unfold gpdmaServeInterrupt
    by_cases h : csr &&& st.ccr i = 0 <;> cases hf : st.func i <;>
      simp [h, hf]
  · intro f hf hne
    unfold gpdmaServeInterrupt
    simp [hf, hne]

/-- C8 witness: a concrete dispatch with callback 7, parameter 5, status
1 and control-register enabled bits 3. -/
theorem serve_interrupt_dispatch_witness :
    (gpdmaServeInterrupt stCb 0 1).2 = some (7, 5, 1) :=
  (serve_interrupt_dispatch stCb 0 1).2.2 7 (by decide) (by decide)

/-- C9: in every state reachable from initialization by claims and
releases, a clock domain is enabled exactly when at least one channel of
that domain is currently owned; the release of the last owned channel of
a domain therefore disables its clock and a claim inside a domain
enables it. -/
theorem clock_gating_invariant :
    ∀ st, Reachable st →
      (st.clock1 = true ↔ st.allocated_mask &&& GPDMA1MASK ≠ 0) ∧
      (st.clock2 = true ↔ st.allocated_mask &&& GPDMA2MASK ≠ 0) := by
  intro st h
  induction h with
  | init => decide
  | alloc st cmask irqprio par fn _ ih =>
    cases hscan : allocScan (st.allocated_mask &&& cmask) with
    | none =>
      rw [allocI_none st cmask irqprio par fn hscan]
      exact ih
    | some i =>
      rw [allocI_some st cmask irqprio par fn i hscan]
      refine ⟨?_, ?_⟩
      · show (if GPDMA1MASK &&& 1 <<< i ≠ 0 then true else st.clock1) = true ↔
          (st.allocated_mask ||| 1 <<< i) &&& GPDMA1MASK ≠ 0
        rw [lor_land_ne_zero]
        by_cases hc : GPDMA1MASK &&& 1 <<< i = 0
        · rw [if_neg (not_not_intro hc)]
          have hc2 : (1 <<< i) &&& GPDMA1MASK = 0 := by
            rw [Nat.land_comm]
            exact hc
          simp [hc2, ih.1]
        · rw [if_pos hc]
          have hc2 : (1 <<< i) &&& GPDMA1MASK ≠ 0 := by
            rw [Nat.land_comm]
            exact hc
          simp [hc2]
      · show (if GPDMA2MASK &&& 1 <<< i ≠ 0 then true else st.clock2) = true ↔
          (st.allocated_mask ||| 1 <<< i) &&& GPDMA2MASK ≠ 0
        rw [lor_land_ne_zero]
        by_cases hc : GPDMA2MASK &&& 1 <<< i = 0
        · rw [if_neg (not_not_intro hc)]
          have hc2 : (1 <<< i) &&& GPDMA2MASK = 0 := by
            rw [Nat.land_comm]
            exact hc
          simp [hc2, ih.2]
        · rw [if_pos hc]
          have hc2 : (1 <<< i) &&& GPDMA2MASK ≠ 0 := by
            rw [Nat.land_comm]
            exact hc
          simp [hc2]
  | free st i hi ho _ ih =>
    refine ⟨?_, ?_⟩
    · rw [freeI_clock1, freeI_mask]
      by_cases h0 : (st.allocated_mask &&& (mask32 ^^^ (1 <<< i))) &&& GPDMA1MASK = 0
      · rw [if_pos h0]
        simp [h0]
      · rw [if_neg h0]
        have hm : st.allocated_mask &&& GPDMA1MASK ≠ 0 := land_land_ne_zero _ _ _ h0
        simp [h0, ih.1, hm]
    · rw [freeI_clock2, freeI_mask]
      by_cases h0 : (st.allocated_mask &&& (mask32 ^^^ (1 <<< i))) &&& GPDMA2MASK = 0
      · rw [if_pos h0]
        simp [h0]
      · rw [if_neg h0]
        have hm : st.allocated_mask &&& GPDMA2MASK ≠ 0 := land_land_ne_zero _ _ _ h0
        simp [h0, ih.2, hm]

/-- C9 witness: the invariant instantiated at the reachable state with
channel 0 claimed (domain A clock on, domain B clock off). -/
theorem clock_gating_invariant_witness :
    (stCh0.clock1 = true ↔ stCh0.allocated_mask &&& GPDMA1MASK ≠ 0) ∧
    (stCh0.clock2 = true ↔ stCh0.allocated_mask &&& GPDMA2MASK ≠ 0) :=
  clock_gating_invariant stCh0
    (Reachable.alloc initSt 1 1 5 (some 7) Reachable.init)

/-- C10: for every owned valid channel descriptor, the locked release
wrapper gpdmaChannelFree equals acquiring exclusive access, performing
the already-locked release, and releasing exclusive access; the callee
gpdmaStreamFreeI lives in the header outside these sources and is
modelled from the spec as the already-locked release. -/
theorem locked_free_wrapper_equivalence :
    ∀ (st : Bool × GpdmaState) (i : Nat), i < NCH → freeOk st.2 i →
      gpdmaChannelFree st i =
        osalSysUnlock ((osalSysLock st).1,
          gpdmaChannelFreeI (osalSysLock st).2 i) := by
  intro st i _ _
  rfl

/-- C10 witness: concrete equality for releasing owned channel 0 from
outside the critical section. -/
theorem locked_free_wrapper_equivalence_witness :
    gpdmaChannelFree (false, stCh0) 0 =
      osalSysUnlock ((osalSysLock (false, stCh0)).1,
        gpdmaChannelFreeI (osalSysLock (false, stCh0)).2 0) :=
  locked_free_wrapper_equivalence (false, stCh0) 0 (by decide) (by decide)

end Gpdma
